import Mathlib

/-!
Verification development for the cart and checkout engine of the
InventoryManagement repository (src/home.py, src/database.py).

The Python source is shallowly embedded: currency amounts are modelled as
rationals, SQLite product rows as a structure whose fields appear in the
column order of the CREATE TABLE statement in src/database.py, the cart
list as a Lean list, and the Qt dialog flows as explicit state machines
whose user decisions (confirmations, dialog cancellations, entered values)
are passed as parameters.
-/

namespace InventoryManagement

/-! ## Amount in words (PDFGenerator.number_to_words, home.py lines 827-871) -/

/-- The units word list of number_to_words. -/
def units : List String :=
  ["", "One", "Two", "Three", "Four", "Five", "Six", "Seven", "Eight", "Nine"]

/-- The teens word list of number_to_words. -/
def teens : List String :=
  ["Ten", "Eleven", "Twelve", "Thirteen", "Fourteen", "Fifteen", "Sixteen",
   "Seventeen", "Eighteen", "Nineteen"]

/-- The tens word list of number_to_words. -/
def tens : List String :=
  ["", "", "Twenty", "Thirty", "Forty", "Fifty", "Sixty", "Seventy", "Eighty", "Ninety"]

/-- Embeds the inner helper convert_two_digits of number_to_words.
For num below 10 it reads the units table, below 20 the teens table, and
otherwise splits into a tens digit and a units digit; when the tens digit
falls outside the tens table (num at least 100) it falls back to the
decimal digits of num, mirroring the str(num) branch of the source. -/
def convert_two_digits (num : Nat) : String :=
  if num < 10 then units.getD num ""
  else if num < 20 then teens.getD (num - 10) ""
  else
    let ten := num / 10
    let unit := num % 10
    if ten < tens.length then
      tens.getD ten "" ++ (if unit > 0 then " " ++ units.getD unit "" else "")
    else
      toString num

/-- Embeds the Python int() conversion on a rational amount: truncation
toward zero (Int division of numerator by denominator). -/
def pyInt (q : ℚ) : ℤ := q.num / q.den

/-- Embeds the Python round() builtin on the fraction a / b with b
positive: round half to even. f is the floor of the fraction and
2 * (a - f * b) is the doubled remainder numerator, compared against the
denominator to decide between f, f + 1 and the even neighbour on a tie. -/
def pyRoundFrac (a b : ℤ) : ℤ :=
  let f := a.fdiv b
  let r2 := 2 * (a - f * b)
  if r2 < b then f
  else if b < r2 then f + 1
  else if f % 2 = 0 then f else f + 1

/-- Embeds the Python str.strip() method: removes leading and trailing
whitespace, here computed over the character list. -/
def pyStrip (s : String) : String :=
  String.mk (((s.data.dropWhile (fun c => c.isWhitespace)).reverse.dropWhile
    (fun c => c.isWhitespace)).reverse)

/-- The paise computation of number_to_words: int(round((n - rupees) * 100))
with rupees = int(n). Since (n - rupees) * 100 equals the fraction
(100 * (n.num - rupees * n.den)) / n.den, the rounding is taken of that
fraction; Python round already returns an integer, so the outer int() is
the identity. -/
def paiseOf (n : ℚ) : ℤ :=
  pyRoundFrac (100 * (n.num - pyInt n * n.den)) n.den

/-- Embeds PDFGenerator.number_to_words (home.py lines 827-871): zero maps
to the bare word Zero; otherwise the integer rupee part is rendered with
branches at 100, 1000 and 100000 (Hundred, Thousand, Lakh), each remainder
handed to convert_two_digits, and a Paise clause is appended only when the
rounded two digit paise part is positive. -/
def number_to_words (n : ℚ) : String :=
  if n = 0 then "Zero"
  else
    let rupees : ℤ := pyInt n
    let paise : ℤ := paiseOf n
    let result : String :=
      if rupees = 0 then ""
      else if rupees < 100 then convert_two_digits rupees.toNat
      else if rupees < 1000 then
        units.getD (rupees / 100).toNat "" ++ " Hundred " ++
          convert_two_digits (rupees % 100).toNat
      else if rupees < 100000 then
        convert_two_digits (rupees / 1000).toNat ++ " Thousand " ++
          convert_two_digits (rupees % 1000).toNat
      else
        convert_two_digits (rupees / 100000).toNat ++ " Lakh " ++
          convert_two_digits (rupees % 100000).toNat
    let result := pyStrip result ++ " Rupees"
    if paise > 0 then
      result ++ " and " ++ convert_two_digits paise.toNat ++ " Paise"
    else result

/-! ## Cart model (CartWidget, home.py lines 877-1253)

A cart entry mirrors the dict appended in add_to_cart: product id, product
name, the price field (which the source keeps as the aggregated line
total), and the quantity. -/

/-- One entry of CartWidget.cart_items; the price field stores the line
total, exactly as the Python dict does. -/
structure CartItem where
  id : Nat
  name : String
  price : ℚ
  quantity : Nat
  deriving DecidableEq

/-- Outcome tag of one add_to_cart call, matching the message boxes and
silent return paths of the source. -/
inductive AddResult where
  | stockLimitReached
  | quantityUpdated
  | replacementDeclined
  | outOfStock
  | cartUpdated
  | addedToCart
  deriving DecidableEq

/-- Embeds CartWidget.add_to_cart (home.py lines 1036-1156). When the cart
already holds an item: for the same product id the quantity is increased
unless the current quantity already reaches stock_available; for a
different product the user is asked to confirm replacement (the
replaceConfirm parameter), and on confirmation the cart is cleared and a
fresh single-quantity line is appended unless the new product is out of
stock. An empty cart receives a fresh single-quantity line unless out of
stock. -/
def add_to_cart (cart : List CartItem) (product_id : Nat) (product_name : String)
    (price : ℚ) (stock_available : ℤ) (replaceConfirm : Bool) :
    List CartItem × AddResult :=
  match cart with
  | current_item :: rest =>
      if current_item.id = product_id then
        if (current_item.quantity : ℤ) ≥ stock_available then
          (current_item :: rest, AddResult.stockLimitReached)
        else
          let new_quantity := current_item.quantity + 1
          ({ current_item with
              quantity := new_quantity,
              price := price * (new_quantity : ℚ) } :: rest,
            AddResult.quantityUpdated)
      else if replaceConfirm then
        if stock_available ≤ 0 then
          (current_item :: rest, AddResult.outOfStock)
        else
          ([{ id := product_id, name := product_name, price := price, quantity := 1 }],
            AddResult.cartUpdated)
      else
        (current_item :: rest, AddResult.replacementDeclined)
  | [] =>
      if stock_available ≤ 0 then ([], AddResult.outOfStock)
      else
        ([{ id := product_id, name := product_name, price := price, quantity := 1 }],
          AddResult.addedToCart)

/-- Embeds CartWidget.remove_from_cart (home.py lines 1206-1221): the row
is popped when it is a valid index, otherwise nothing happens. -/
def remove_from_cart (cart : List CartItem) (row : Nat) : List CartItem :=
  if row < cart.length then cart.eraseIdx row else cart

/-- Embeds CartWidget.clear_cart (home.py lines 1231-1253): an empty cart
returns at once; otherwise the user confirms and on Yes the list is
cleared. -/
def clear_cart (cart : List CartItem) (confirm : Bool) : List CartItem :=
  if cart = [] then cart
  else if confirm then [] else cart

/-- One user-driven cart operation, carrying the user decision that the
corresponding Qt dialog would collect. -/
inductive CartOp where
  | add (product_id : Nat) (product_name : String) (price : ℚ)
      (stock_available : ℤ) (replaceConfirm : Bool)
  | remove (row : Nat)
  | clear (confirm : Bool)

/-- Applies one cart operation to the cart state. -/
def cartStep (cart : List CartItem) : CartOp → List CartItem
  | CartOp.add pid pname price stock c => (add_to_cart cart pid pname price stock c).1
  | CartOp.remove row => remove_from_cart cart row
  | CartOp.clear c => clear_cart cart c

/-- Runs a sequence of cart operations from the initial empty cart created
in CartWidget init. -/
def runCart (ops : List CartOp) : List CartItem := ops.foldl cartStep []

/-! ## Inventory Store model (Database, src/database.py)

The products table is created (database.py lines 36-47) with columns in
this order: id, name, description, price_per_hour, image_path,
stock_quantity, is_available, created_at. A SELECT * row therefore has
stock_quantity at index 5 and is_available at index 6. SQLite stores the
boolean availability flag as an integer. -/

/-- A row of the products table, fields in schema column order. -/
structure ProductRow where
  id : Nat
  name : String
  description : String
  price_per_hour : ℚ
  image_path : String
  stock_quantity : ℤ
  is_available : ℤ
  deriving DecidableEq

/-- The Inventory Store state: the rows of the products table. -/
abbrev Store := List ProductRow

/-- Embeds Database.get_product (database.py lines 119-123): the first row
whose id matches. -/
def get_product (db : Store) (product_id : Nat) : Option ProductRow :=
  db.find? (fun p => p.id = product_id)

/-- Embeds Database.update_product called with only the stock argument
(database.py lines 125-160): sets stock_quantity on every row whose id
matches. -/
def update_product_stock (db : Store) (product_id : Nat) (stock : ℤ) : Store :=
  db.map (fun p => if p.id = product_id then { p with stock_quantity := stock } else p)

/-- The value the checkout code reads as product[6]. In the schema column
order of database.py, index 6 is the is_available column (index 5 holds
stock_quantity); the rest of the repository (admin_panel.py lines 819-829,
home.py lines 158-170) reads stock from index 5 and availability from
index 6. -/
def rowIndex6 (p : ProductRow) : ℤ := p.is_available

/-! ## Checkout-time stock validation and stock decrement
(CartWidget.checkout lines 1551-1574 and 1619-1629,
CartWidget.process_advance_payment lines 1261-1284 and 1339-1349) -/

/-- Result of the pre-checkout stock loop: either the loop falls through,
or it aborts reporting the product name, the value it read as available,
and the requested quantity. -/
inductive StockCheck where
  | ok
  | insufficient (product_name : String) (available : ℤ) (requested : Nat)
  deriving DecidableEq

/-- Embeds the stock validation loop run by both checkout paths: for each
cart item the product row is re-read through get_product; if the row
exists and int(product[6]) is smaller than the requested quantity the
checkout aborts with the shortfall message; a missing row is skipped. -/
def check_stock (db : Store) : List CartItem → StockCheck
  | [] => StockCheck.ok
  | item :: rest =>
      match get_product db item.id with
      | some product =>
          if rowIndex6 product < (item.quantity : ℤ) then
            StockCheck.insufficient product.name (rowIndex6 product) item.quantity
          else check_stock db rest
      | none => check_stock db rest

/-- Embeds the stock update loop of both checkout paths: for each cart
item the row is re-read, and update_product is called with
int(product[6]) minus the purchased quantity as the new stock; a missing
row is skipped. -/
def update_stock_loop (db : Store) (cart : List CartItem) : Store :=
  cart.foldl
    (fun acc item =>
      match get_product acc item.id with
      | some product =>
          update_product_stock acc item.id (rowIndex6 product - (item.quantity : ℤ))
      | none => acc)
    db

/-- Sum of the price fields, as computed by sum(item[price] for item in
cart_items) before both checkout paths. -/
def cartTotal : List CartItem → ℚ
  | [] => 0
  | item :: rest => item.price + cartTotal rest

/-! ## Advance payment dialog (AdvancePaymentDialog, home.py lines 348-571)

The dialog state carries the fields set in init (lines 349-355) plus the
payment_type attribute created by the accept handlers and the accepted
flag of QDialog.exec. The advance amount spin box is created with range
0 to total (line 447), so every value it emits is clamped into that
range; the due date widget is created with minimum date today (line 464),
so every date it holds is at least today. -/

/-- The five entries of the payment method combo box (home.py line 434). -/
def paymentMethods : List String :=
  ["Cash", "Credit Card", "Debit Card", "UPI", "Bank Transfer"]

/-- The payment_type string set by the accept handlers. -/
inductive PayKind where
  | full
  | advance
  deriving DecidableEq

/-- State of one AdvancePaymentDialog instance. Dates are modelled as
integer day numbers. -/
structure DialogState where
  total_amount : ℚ
  advance_amount : ℚ
  balance_amount : ℚ
  payment_method : String
  due_date : ℤ
  payment_type : Option PayKind
  accepted : Bool
  deriving DecidableEq

/-- Embeds AdvancePaymentDialog init (home.py lines 349-355). -/
def dialogInit (total : ℚ) (today : ℤ) : DialogState :=
  { total_amount := total
    advance_amount := 0
    balance_amount := total
    payment_method := "Cash"
    due_date := today + 7
    payment_type := none
    accepted := false }

/-- The clamping a QDoubleSpinBox with range lo to hi applies to an
entered value. -/
def clampSpin (lo hi v : ℚ) : ℚ := max lo (min hi v)

/-- One user interaction with the dialog: choosing a combo entry,
editing the advance spin box, clicking Process Advance Payment with the
date currently held by the date widget, or clicking Pay Full Amount. -/
inductive DialogEvent where
  | selectMethod (i : Fin 5)
  | changeAdvance (v : ℚ)
  | clickAdvance (d : ℤ)
  | clickFull
  deriving DecidableEq

/-- The only validation failure the dialog can raise: the Invalid Amount
warning of accept_advance (home.py lines 559-561). -/
inductive DialogError where
  | invalidAmount
  deriving DecidableEq

/-- Embeds the dialog event handlers (home.py lines 544-571):
on_payment_method_changed stores the chosen combo entry;
on_advance_changed stores the clamped spin value and recomputes the
balance as total minus that value; accept_advance warns and leaves the
dialog open when the advance is not positive, and otherwise stores the
widget date (clamped to at least today), marks the payment type advance
and accepts; accept_full sets the advance to the total, the balance to
zero, marks the payment type full and accepts. -/
def dialogStep (today : ℤ) (st : DialogState) :
    DialogEvent → DialogState × Option DialogError
  | DialogEvent.selectMethod i =>
      ({ st with payment_method := paymentMethods.getD i.val "Cash" }, none)
  | DialogEvent.changeAdvance v =>
      let v' := clampSpin 0 st.total_amount v
      ({ st with advance_amount := v', balance_amount := st.total_amount - v' }, none)
  | DialogEvent.clickAdvance d =>
      if st.advance_amount ≤ 0 then (st, some DialogError.invalidAmount)
      else
        ({ st with
            due_date := max today d,
            payment_type := some PayKind.advance,
            accepted := true }, none)
  | DialogEvent.clickFull =>
      ({ st with
          advance_amount := st.total_amount,
          balance_amount := 0,
          payment_type := some PayKind.full,
          accepted := true }, none)

/-- Runs a dialog session: the initial state of init followed by a
sequence of user interactions. -/
def runDialog (total : ℚ) (today : ℤ) (events : List DialogEvent) : DialogState :=
  events.foldl (fun st ev => (dialogStep today st ev).1) (dialogInit total today)

/-! ## Checkout orchestration
(CartWidget.checkout lines 1545-1673 and
CartWidget.process_advance_payment lines 1255-1407)

Each path is a straight-line function of the cart, the store, and the
user decisions: the outcome of the customer information dialog, the save
file dialog, whether the PDF build raises, whether the user asks to open
the PDF, and whether opening it raises. The cart clearing statement sits
after the open step inside the same try block, so an exception while
opening skips it; the stock update loop sits before the open step. -/

/-- Result tag of one checkout attempt. -/
inductive CheckoutResult where
  | emptyCart
  | stockIssue (product_name : String) (available : ℤ) (requested : Nat)
  | dialogCancelled
  | identityCancelled
  | saveCancelled
  | renderFailed
  | openFailed
  | completed
  deriving DecidableEq

/-- Customer identity collected by get_customer_info. -/
structure CustomerInfo where
  name : String
  address : String
  phone : String
  email : String
  deriving DecidableEq

/-- Observable outcome of a checkout attempt: the cart afterwards, the
store afterwards, the payment_method string handed to generate_invoice
when an invoice was produced, and the result tag. -/
structure CheckoutOutcome where
  cart : List CartItem
  db : Store
  invoiceMethod : Option String
  result : CheckoutResult
  deriving DecidableEq

/-- Embeds CartWidget.checkout (home.py lines 1545-1673), the full
payment path: empty cart check, stock validation loop, customer
information dialog, save file dialog, then the try block that builds the
PDF (payment_method is the literal Full Payment), runs the stock update
loop, optionally opens the PDF, and clears the cart; an exception while
opening the PDF is caught by the except handler after the stock update
but before the cart clearing. -/
def checkout (cart : List CartItem) (db : Store)
    (customer : Option CustomerInfo) (file_path : Option String)
    (renderOk openPdf openRaises : Bool) : CheckoutOutcome :=
  if cart = [] then ⟨cart, db, none, CheckoutResult.emptyCart⟩
  else
    match check_stock db cart with
    | StockCheck.insufficient n a r => ⟨cart, db, none, CheckoutResult.stockIssue n a r⟩
    | StockCheck.ok =>
        match customer with
        | none => ⟨cart, db, none, CheckoutResult.identityCancelled⟩
        | some _ =>
            match file_path with
            | none => ⟨cart, db, none, CheckoutResult.saveCancelled⟩
            | some _ =>
                if renderOk = false then ⟨cart, db, none, CheckoutResult.renderFailed⟩
                else if openPdf && openRaises then
                  ⟨cart, update_stock_loop db cart, some "Full Payment",
                    CheckoutResult.openFailed⟩
                else
                  ⟨[], update_stock_loop db cart, some "Full Payment",
                    CheckoutResult.completed⟩

/-- Embeds CartWidget.process_advance_payment (home.py lines 1255-1407),
the advance path: empty cart check, stock validation loop, the advance
payment dialog session (aborting when the dialog was not accepted),
customer information dialog, save file dialog, then the try block that
builds the PDF (payment_method is the method chosen in the dialog), runs
the stock update loop, optionally opens the PDF, and clears the cart;
an exception while opening is caught after the stock update but before
the cart clearing. -/
def process_advance_payment (cart : List CartItem) (db : Store)
    (today : ℤ) (dialogEvents : List DialogEvent)
    (customer : Option CustomerInfo) (file_path : Option String)
    (renderOk openPdf openRaises : Bool) : CheckoutOutcome :=
  if cart = [] then ⟨cart, db, none, CheckoutResult.emptyCart⟩
  else
    match check_stock db cart with
    | StockCheck.insufficient n a r => ⟨cart, db, none, CheckoutResult.stockIssue n a r⟩
    | StockCheck.ok =>
        if (runDialog (cartTotal cart) today dialogEvents).accepted = false then
          ⟨cart, db, none, CheckoutResult.dialogCancelled⟩
        else
          match customer with
          | none => ⟨cart, db, none, CheckoutResult.identityCancelled⟩
          | some _ =>
              match file_path with
              | none => ⟨cart, db, none, CheckoutResult.saveCancelled⟩
              | some _ =>
                  if renderOk = false then ⟨cart, db, none, CheckoutResult.renderFailed⟩
                  else if openPdf && openRaises then
                    ⟨cart, update_stock_loop db cart,
                      some (runDialog (cartTotal cart) today dialogEvents).payment_method,
                      CheckoutResult.openFailed⟩
                  else
                    ⟨[], update_stock_loop db cart,
                      some (runDialog (cartTotal cart) today dialogEvents).payment_method,
                      CheckoutResult.completed⟩

/-- The result tags on which a checkout attempt aborts before the try
block commits anything: failed stock validation, a cancelled advance
payment dialog, a cancelled customer information dialog, a cancelled save
file dialog, or a PDF build failure. -/
def isAbort : CheckoutResult → Bool
  | CheckoutResult.stockIssue _ _ _ => true
  | CheckoutResult.dialogCancelled => true
  | CheckoutResult.identityCancelled => true
  | CheckoutResult.saveCancelled => true
  | CheckoutResult.renderFailed => true
  | _ => false

/-- Invariant of a dialog state: the stored total is the construction
total, advance plus balance equals it, the advance lies between zero and
the total whenever the total is non-negative, and the stored payment
method is one of the combo box entries. -/
def DialogInv (total : ℚ) (st : DialogState) : Prop :=
  st.total_amount = total ∧
  st.advance_amount + st.balance_amount = total ∧
  (0 ≤ total → 0 ≤ st.advance_amount ∧ st.advance_amount ≤ total) ∧
  st.payment_method ∈ paymentMethods

/-! ## Helper lemmas -/

theorem dialogInit_inv (total : ℚ) (today : ℤ) :
    DialogInv total (dialogInit total today) := by
  refine ⟨rfl, by simp [dialogInit], ?_, by simp [dialogInit, paymentMethods]⟩
  intro ht
  exact ⟨le_refl 0, ht⟩

theorem dialogStep_inv (total : ℚ) (today : ℤ) (st : DialogState) (ev : DialogEvent)
    (h : DialogInv total st) : DialogInv total (dialogStep today st ev).1 := by
  obtain ⟨h1, h2, h3, h4⟩ := h
  cases ev with
  | selectMethod i =>
      refine ⟨h1, h2, h3, ?_⟩
      fin_cases i <;> simp [dialogStep, paymentMethods]
  | changeAdvance v =>
      refine ⟨h1, ?_, ?_, h4⟩
      · simp only [dialogStep]
        rw [← h1]
        ring
      · intro ht
        constructor
        · exact le_max_left _ _
        · simp only [dialogStep]
          apply max_le ht
          calc min st.total_amount v ≤ st.total_amount := min_le_left _ _
            _ = total := h1
  | clickAdvance d =>
      by_cases ha : st.advance_amount ≤ 0
      · simpa [dialogStep, ha] using ⟨h1, h2, h3, h4⟩
      · simpa [dialogStep, ha] using ⟨h1, h2, h3, h4⟩
  | clickFull =>
      refine ⟨h1, ?_, ?_, h4⟩
      · simp only [dialogStep]
        rw [h1]
        ring
      · intro ht
        simp only [dialogStep]
        exact ⟨h1 ▸ ht, le_of_eq h1⟩

theorem runDialog_inv (total : ℚ) (today : ℤ) (events : List DialogEvent) :
    DialogInv total (runDialog total today events) := by
  suffices h : ∀ st : DialogState, DialogInv total st →
      DialogInv total (events.foldl (fun st ev => (dialogStep today st ev).1) st) by
    exact h _ (dialogInit_inv total today)
  induction events with
  | nil => intro st h; simpa using h
  | cons ev rest ih =>
      intro st h
      simpa using ih _ (dialogStep_inv total today st ev h)

theorem cartStep_length_le (cart : List CartItem) (op : CartOp)
    (h : cart.length ≤ 1) : (cartStep cart op).length ≤ 1 := by
  cases op with
  | add pid pname price stock c =>
      cases cart with
      | nil =>
          simp only [cartStep, add_to_cart]
          split <;> simp
      | cons a l =>
          have hl : l = [] := by
            cases l with
            | nil => rfl
            | cons b m => simp at h
          subst hl
          simp only [cartStep, add_to_cart]
          split_ifs <;> simp
  | remove row =>
      cases cart with
      | nil => simp [cartStep, remove_from_cart]
      | cons a l =>
          have hl : l = [] := by
            cases l with
            | nil => rfl
            | cons b m => simp at h
          subst hl
          simp only [cartStep, remove_from_cart]
          split_ifs with hr
          · have : row = 0 := by simpa using hr
            subst this
            simp
          · simp
  | clear c =>
      simp only [cartStep, clear_cart]
      split_ifs <;> simp_all

theorem runCart_length_aux (ops : List CartOp) :
    ∀ cart : List CartItem, cart.length ≤ 1 →
      (ops.foldl cartStep cart).length ≤ 1 := by
  induction ops with
  | nil => intro cart h; simpa using h
  | cons op rest ih =>
      intro cart h
      simpa using ih _ (cartStep_length_le cart op h)

/-! ## Claim theorems -/

/-- C1. The claim states that checkout stock validation returns Ok exactly
when the requested quantity is at most the freshly read stockQuantity.
The code instead reads row index 6, which in the schema column order is
the is_available flag, not stock_quantity (index 5). At a row with
stock_quantity 5 and is_available 1, a cart quantity of 3 is rejected with
an available count of 1 even though 3 is at most the live stock 5; and at
a row with stock_quantity 0 and is_available 1, a cart quantity of 1
passes validation even though the live stock is 0. -/
theorem c1_validation_reads_availability_flag :
    (check_stock [⟨1, "Chair", "", 500, "", 5, 1⟩] [⟨1, "Chair", 1500, 3⟩]
        = StockCheck.insufficient "Chair" 1 3 ∧ (3 : ℤ) ≤ 5) ∧
    (check_stock [⟨2, "Table", "", 900, "", 0, 1⟩] [⟨2, "Table", 900, 1⟩]
        = StockCheck.ok ∧ ¬ ((1 : ℤ) ≤ 0)) := by
  decide

/-- C2. The claim states that after a successful checkout the cart is
empty and the stock of the purchased product equals its pre-checkout
value minus the purchased quantity. The commit loop reads row index 6
(the is_available flag) as the current stock and writes flag minus
quantity: at a row with stock_quantity 5 and is_available 1, buying one
unit completes, empties the cart, and leaves stock_quantity 0 instead of
the claimed 4. -/
theorem c2_commit_decrements_from_availability_flag :
    ((checkout [⟨1, "Chair", 500, 1⟩] [⟨1, "Chair", "", 500, "", 5, 1⟩]
        (some ⟨"Asha", "12 Main Street", "", ""⟩) (some "invoice.pdf")
        true false false).result = CheckoutResult.completed) ∧
    ((checkout [⟨1, "Chair", 500, 1⟩] [⟨1, "Chair", "", 500, "", 5, 1⟩]
        (some ⟨"Asha", "12 Main Street", "", ""⟩) (some "invoice.pdf")
        true false false).cart = []) ∧
    ((get_product (checkout [⟨1, "Chair", 500, 1⟩] [⟨1, "Chair", "", 500, "", 5, 1⟩]
        (some ⟨"Asha", "12 Main Street", "", ""⟩) (some "invoice.pdf")
        true false false).db 1).map (fun p => p.stock_quantity) = some 0) ∧
    (5 - 1 ≠ (0 : ℤ)) := by
  decide

/-- C3 counterexample. The claim maps 0 to the words Zero Rupees and 1500
to One Thousand Five Hundred Rupees; number_to_words returns the bare
word Zero for 0 (the early return skips the Rupees suffix) and renders
1500 as One Thousand 500 Rupees (the two digit converter falls back to
decimal digits for the remainder 500). -/
theorem c3_round_cases_counterexample :
    number_to_words 0 ≠ "Zero Rupees" ∧
    number_to_words 1500 ≠ "One Thousand Five Hundred Rupees" := by
  decide

/-- C3 amended. The amount in words function uses hundred, thousand and
hundred-thousand (lakh) grouping, rendering each remainder with a two
digit converter that falls back to decimal digits at or above 100; it
maps 0 to Zero (with no Rupees suffix), 100 to One Hundred Rupees, 1500
to One Thousand 500 Rupees, 100000 to One Lakh Rupees, and 1250.50 to One
Thousand 250 Rupees and Fifty Paise, appending a Paise clause only when
the rounded two digit minor unit is nonzero (1250 has none). -/
theorem c3_amount_in_words_actual :
    number_to_words 0 = "Zero" ∧
    number_to_words 100 = "One Hundred Rupees" ∧
    number_to_words 1500 = "One Thousand 500 Rupees" ∧
    number_to_words 100000 = "One Lakh Rupees" ∧
    (mkRat 2501 2 : ℚ) = (1250.50 : ℚ) ∧
    number_to_words (mkRat 2501 2) = "One Thousand 250 Rupees and Fifty Paise" ∧
    number_to_words 1250 = "One Thousand 250 Rupees" := by
  refine ⟨by decide, by decide, by decide, by decide, by norm_num, by decide, by decide⟩

/-- C4 counterexample. The claim states that once the invoice has been
produced the commit always runs to completion, decrementing stock and
clearing the cart even if the open document step fails. In the source the
cart clearing statement sits after the open step inside the same try
block, so when opening the produced PDF raises, the stock update has run
but the cart is left unchanged (non-empty). -/
theorem c4_open_failure_leaves_cart :
    ((checkout [⟨1, "Chair", 500, 1⟩] [⟨1, "Chair", "", 500, "", 5, 1⟩]
        (some ⟨"Asha", "12 Main Street", "", ""⟩) (some "invoice.pdf")
        true true true).result = CheckoutResult.openFailed) ∧
    ((checkout [⟨1, "Chair", 500, 1⟩] [⟨1, "Chair", "", 500, "", 5, 1⟩]
        (some ⟨"Asha", "12 Main Street", "", ""⟩) (some "invoice.pdf")
        true true true).db
      = update_stock_loop [⟨1, "Chair", "", 500, "", 5, 1⟩] [⟨1, "Chair", 500, 1⟩]) ∧
    ((checkout [⟨1, "Chair", 500, 1⟩] [⟨1, "Chair", "", 500, "", 5, 1⟩]
        (some ⟨"Asha", "12 Main Street", "", ""⟩) (some "invoice.pdf")
        true true true).cart = [⟨1, "Chair", 500, 1⟩]) ∧
    ([⟨1, "Chair", 500, 1⟩] ≠ ([] : List CartItem)) := by
  decide

/-- C4 amended. For every checkout (full or advance) that has reached the
commit point, the stock update loop always completes (the resulting store
is update_stock_loop of the pre-checkout store); the cart is cleared when
the open document step does not raise, but an exception while opening the
document leaves the cart unchanged. -/
theorem c4_commit_stock_always_cart_unless_open_raises
    (cart : List CartItem) (db : Store) (customer : Option CustomerInfo)
    (fp : Option String) (renderOk openPdf openRaises : Bool)
    (today : ℤ) (events : List DialogEvent) :
    (((checkout cart db customer fp renderOk openPdf openRaises).result
          = CheckoutResult.openFailed ∨
      (checkout cart db customer fp renderOk openPdf openRaises).result
          = CheckoutResult.completed) →
      (checkout cart db customer fp renderOk openPdf openRaises).db
          = update_stock_loop db cart ∧
      ((checkout cart db customer fp renderOk openPdf openRaises).result
          = CheckoutResult.completed →
        (checkout cart db customer fp renderOk openPdf openRaises).cart = []) ∧
      ((checkout cart db customer fp renderOk openPdf openRaises).result
          = CheckoutResult.openFailed →
        (checkout cart db customer fp renderOk openPdf openRaises).cart = cart)) ∧
    (((process_advance_payment cart db today events customer fp renderOk openPdf openRaises).result
          = CheckoutResult.openFailed ∨
      (process_advance_payment cart db today events customer fp renderOk openPdf openRaises).result
          = CheckoutResult.completed) →
      (process_advance_payment cart db today events customer fp renderOk openPdf openRaises).db
          = update_stock_loop db cart ∧
      ((process_advance_payment cart db today events customer fp renderOk openPdf openRaises).result
          = CheckoutResult.completed →
        (process_advance_payment cart db today events customer fp renderOk openPdf openRaises).cart
          = []) ∧
      ((process_advance_payment cart db today events customer fp renderOk openPdf openRaises).result
          = CheckoutResult.openFailed →
        (process_advance_payment cart db today events customer fp renderOk openPdf openRaises).cart
          = cart)) := by
  constructor
  · unfold checkout
    repeat' split
    all_goals simp_all
  · unfold process_advance_payment
    repeat' split
    all_goals simp_all

/-- C4 witness. -/
theorem c4_commit_witness :
    (checkout [⟨1, "Chair", 500, 1⟩] [⟨1, "Chair", "", 500, "", 5, 1⟩]
        (some ⟨"Asha", "12 Main Street", "", ""⟩) (some "invoice.pdf")
        true false false).db
      = update_stock_loop [⟨1, "Chair", "", 500, "", 5, 1⟩] [⟨1, "Chair", 500, 1⟩] ∧
    (checkout [⟨1, "Chair", 500, 1⟩] [⟨1, "Chair", "", 500, "", 5, 1⟩]
        (some ⟨"Asha", "12 Main Street", "", ""⟩) (some "invoice.pdf")
        true false false).cart = [] := by
  have h := (c4_commit_stock_always_cart_unless_open_raises
      [⟨1, "Chair", 500, 1⟩] [⟨1, "Chair", "", 500, "", 5, 1⟩]
      (some ⟨"Asha", "12 Main Street", "", ""⟩) (some "invoice.pdf")
      true false false 0 []).1 (Or.inr (by decide))
  exact ⟨h.1, h.2.1 (by decide)⟩

/-- C5. For every checkout attempt (full or advance) that aborts — stock
validation failed, the advance payment dialog, the customer information
dialog or the save file dialog was cancelled, or the PDF build raised —
the cart and every stock quantity in the Inventory Store are exactly what
they were before the attempt. -/
theorem c5_abort_preserves_state
    (cart : List CartItem) (db : Store) (customer : Option CustomerInfo)
    (fp : Option String) (renderOk openPdf openRaises : Bool)
    (today : ℤ) (events : List DialogEvent) :
    (isAbort (checkout cart db customer fp renderOk openPdf openRaises).result = true →
      (checkout cart db customer fp renderOk openPdf openRaises).cart = cart ∧
      (checkout cart db customer fp renderOk openPdf openRaises).db = db) ∧
    (isAbort (process_advance_payment cart db today events customer fp
          renderOk openPdf openRaises).result = true →
      (process_advance_payment cart db today events customer fp
          renderOk openPdf openRaises).cart = cart ∧
      (process_advance_payment cart db today events customer fp
          renderOk openPdf openRaises).db = db) := by
  constructor
  · unfold checkout
    repeat' split
    all_goals simp_all [isAbort]
  · unfold process_advance_payment
    repeat' split
    all_goals simp_all [isAbort]

/-- C5 witness: a full checkout aborted by failed stock validation leaves
the cart and the store unchanged. -/
theorem c5_abort_witness :
    (checkout [⟨1, "Chair", 500, 2⟩] [⟨1, "Chair", "", 500, "", 5, 1⟩]
        none none false false false).cart = [⟨1, "Chair", 500, 2⟩] ∧
    (checkout [⟨1, "Chair", 500, 2⟩] [⟨1, "Chair", "", 500, "", 5, 1⟩]
        none none false false false).db = [⟨1, "Chair", "", 500, "", 5, 1⟩] := by
  exact (c5_abort_preserves_state [⟨1, "Chair", 500, 2⟩]
      [⟨1, "Chair", "", 500, "", 5, 1⟩] none none false false false 0 []).1
    (by decide)

/-- C6. Adding the same product again to a cart holding one line for it:
the call fails with StockLimitReached and leaves the line unchanged if
and only if quantity + 1 exceeds the supplied availableStock; otherwise
it sets the quantity to quantity + 1 and the line total to
unitPrice * (quantity + 1). -/
theorem c6_same_product_increase (item : CartItem) (pname : String)
    (price : ℚ) (stock : ℤ) (confirm : Bool) :
    ((item.quantity : ℤ) + 1 > stock →
      add_to_cart [item] item.id pname price stock confirm
        = ([item], AddResult.stockLimitReached)) ∧
    ((item.quantity : ℤ) + 1 ≤ stock →
      add_to_cart [item] item.id pname price stock confirm
        = ([{ item with
                quantity := item.quantity + 1,
                price := price * ((item.quantity : ℚ) + 1) }],
           AddResult.quantityUpdated)) := by
  constructor
  · intro h
    have hge : (item.quantity : ℤ) ≥ stock := by omega
    simp [add_to_cart, hge]
  · intro h
    have hlt : ¬ ((item.quantity : ℤ) ≥ stock) := by omega
    simp [add_to_cart, hlt]

/-- C6 witness: at the boundary (quantity 3, stock 3) the call fails and
leaves the line unchanged; below it (quantity 2, stock 3) the quantity
becomes 3 and the line total 500 * 3. -/
theorem c6_same_product_witness :
    add_to_cart [⟨1, "Chair", 1500, 3⟩] 1 "Chair" 500 3 false
      = ([⟨1, "Chair", 1500, 3⟩], AddResult.stockLimitReached) ∧
    add_to_cart [⟨1, "Chair", 1000, 2⟩] 1 "Chair" 500 3 false
      = ([⟨1, "Chair", 500 * ((2 : ℚ) + 1), 3⟩], AddResult.quantityUpdated) := by
  exact ⟨(c6_same_product_increase ⟨1, "Chair", 1500, 3⟩ "Chair" 500 3 false).1 (by decide),
    (c6_same_product_increase ⟨1, "Chair", 1000, 2⟩ "Chair" 500 3 false).2 (by decide)⟩

/-- C7. After any finite sequence of cart operations (add with or without
replacement confirmation, remove, clear) starting from the empty cart,
the cart holds at most one line. -/
theorem c7_single_line_invariant (ops : List CartOp) :
    (runCart ops).length ≤ 1 := by
  exact runCart_length_aux ops [] (by simp)

/-- C8. For every dialog session, the advance amount plus the balance
equals the stored total; and the full payment shortcut always produces a
zero balance and payment kind full, from any dialog state whatever the
total. -/
theorem c8_payment_split_closure :
    (∀ (total : ℚ) (today : ℤ) (events : List DialogEvent),
      (runDialog total today events).advance_amount
          + (runDialog total today events).balance_amount
        = (runDialog total today events).total_amount) ∧
    (∀ (today : ℤ) (st : DialogState),
      ((dialogStep today st DialogEvent.clickFull).1).balance_amount = 0 ∧
      ((dialogStep today st DialogEvent.clickFull).1).payment_type
        = some PayKind.full) := by
  constructor
  · intro total today events
    obtain ⟨h1, h2, -, -⟩ := runDialog_inv total today events
    rw [h1]
    exact h2
  · intro today st
    exact ⟨rfl, rfl⟩

/-- C9 counterexample. The claim states that creating an advance plan
fails with InvalidAmount when the advance exceeds the total. Entering 150
against a total of 100 is clamped to 100 by the spin box; clicking
Process Advance Payment then succeeds with no error, an accepted dialog
and kind Advance — no InvalidAmount failure occurs. -/
theorem c9_overlimit_advance_accepted :
    (100 : ℚ) < 150 ∧
    (dialogStep 0 (runDialog 100 0 [DialogEvent.changeAdvance 150])
        (DialogEvent.clickAdvance 5)).2 = none ∧
    ((dialogStep 0 (runDialog 100 0 [DialogEvent.changeAdvance 150])
        (DialogEvent.clickAdvance 5)).1).accepted = true ∧
    ((dialogStep 0 (runDialog 100 0 [DialogEvent.changeAdvance 150])
        (DialogEvent.clickAdvance 5)).1).payment_type = some PayKind.advance := by
  decide

/-- C9 amended. For a non-negative total: the advance held by the dialog
always lies between 0 and the total (the spin box clamps entered values),
so an advance above the total cannot be submitted, and the date widget
clamps the due date to at least today, so InvalidDueDate cannot arise;
clicking Process Advance Payment fails with the Invalid Amount warning
and leaves the state unchanged exactly when the advance is not positive,
and otherwise accepts with balance equal to total minus advance, kind
Advance, and a due date at least today. -/
theorem c9_advance_validation (total : ℚ) (today d : ℤ)
    (events : List DialogEvent) (st : DialogState)
    (hst : st = runDialog total today events) (htotal : 0 ≤ total) :
    (0 ≤ st.advance_amount ∧ st.advance_amount ≤ total) ∧
    (st.advance_amount ≤ 0 →
      dialogStep today st (DialogEvent.clickAdvance d)
        = (st, some DialogError.invalidAmount)) ∧
    (0 < st.advance_amount →
      (dialogStep today st (DialogEvent.clickAdvance d)).2 = none ∧
      ((dialogStep today st (DialogEvent.clickAdvance d)).1).accepted = true ∧
      ((dialogStep today st (DialogEvent.clickAdvance d)).1).payment_type
        = some PayKind.advance ∧
      ((dialogStep today st (DialogEvent.clickAdvance d)).1).balance_amount
        = total - st.advance_amount ∧
      today ≤ ((dialogStep today st (DialogEvent.clickAdvance d)).1).due_date) := by
  subst hst
  obtain ⟨h1, h2, h3, h4⟩ := runDialog_inv total today events
  refine ⟨h3 htotal, ?_, ?_⟩
  · intro ha
    simp [dialogStep, ha]
  · intro ha
    have hna : ¬ (runDialog total today events).advance_amount ≤ 0 := not_le.mpr ha
    refine ⟨by simp [dialogStep, hna], by simp [dialogStep, hna],
      by simp [dialogStep, hna], ?_, ?_⟩
    · simp only [dialogStep, if_neg hna]
      linarith [h2]
    · simp only [dialogStep, if_neg hna]
      exact le_max_left _ _

/-- C9 witness. -/
theorem c9_advance_witness :
    (dialogStep 0 (runDialog 500 0 [DialogEvent.changeAdvance 200])
        (DialogEvent.clickAdvance 3)).2 = none ∧
    ((dialogStep 0 (runDialog 500 0 [DialogEvent.changeAdvance 200])
        (DialogEvent.clickAdvance 3)).1).payment_type = some PayKind.advance := by
  have h := (c9_advance_validation 500 0 3 [DialogEvent.changeAdvance 200]
      (runDialog 500 0 [DialogEvent.changeAdvance 200]) rfl (by norm_num)).2.2
    (by decide)
  exact ⟨h.1, h.2.2.1⟩

/-- C10. The full payment path records the fixed literal Full Payment as
the payment method, which is not one of the five combo box methods; the
advance path records only a method from the combo box list. -/
theorem c10_payment_method_literal :
    ("Full Payment" ∉ paymentMethods) ∧
    (∀ (cart : List CartItem) (db : Store) (customer : Option CustomerInfo)
        (fp : Option String) (rOk oP oR : Bool) (m : String),
      (checkout cart db customer fp rOk oP oR).invoiceMethod = some m →
        m = "Full Payment") ∧
    (∀ (cart : List CartItem) (db : Store) (today : ℤ)
        (events : List DialogEvent) (customer : Option CustomerInfo)
        (fp : Option String) (rOk oP oR : Bool) (m : String),
      (process_advance_payment cart db today events customer fp rOk oP oR).invoiceMethod
          = some m →
        m ∈ paymentMethods) := by
  refine ⟨by decide, ?_, ?_⟩
  · intro cart db customer fp rOk oP oR m h
    unfold checkout at h
    repeat' split at h
    all_goals simp_all
  · intro cart db today events customer fp rOk oP oR m h
    obtain ⟨-, -, -, h4⟩ := runDialog_inv (cartTotal cart) today events
    unfold process_advance_payment at h
    repeat' split at h
    all_goals simp_all

/-- C10 witness. -/
theorem c10_payment_method_witness :
    ("Full Payment" : String) = "Full Payment" ∧
    ("Cash" : String) ∈ paymentMethods := by
  constructor
  · exact c10_payment_method_literal.2.1 [⟨1, "Chair", 500, 1⟩]
      [⟨1, "Chair", "", 500, "", 5, 1⟩] (some ⟨"Asha", "12 Main Street", "", ""⟩)
      (some "invoice.pdf") true false false "Full Payment" (by decide)
  · exact c10_payment_method_literal.2.2 [⟨1, "Chair", 500, 1⟩]
      [⟨1, "Chair", "", 500, "", 5, 1⟩] 0
      [DialogEvent.changeAdvance 200, DialogEvent.clickAdvance 3]
      (some ⟨"Asha", "12 Main Street", "", ""⟩) (some "invoice.pdf")
      true false false "Cash" (by with_unfolding_all rfl)

end InventoryManagement
